import Mathlib

/-!
# HardwareSerial (cores/esp8266/HardwareSerial.cpp)

A shallow embedding of the `HardwareSerial` class of the esp8266 Arduino core.

The class is a facade over the C UART driver (`uart_init`, `uart_write_char`, ...), whose
code is not part of the embedded file.  The driver is therefore represented by

* a record `Driver` of *answers*: what each driver function returns, as a function of the
  complete sequence of calls made so far and of the arguments of the call.  A theorem that
  quantifies over `Driver` holds for every deterministic driver;
* a `World`: the driver-owned debug-sink flag and the sequence of driver and platform calls
  made so far (`trace`, oldest call first).

Every member function is a function on the object's fields (`HardwareSerial`) and the
`World`.  A `uart_t*` is an `Option Nat`: `none` is `NULL`, `some a` a live instance.
-/

/-- A `uart_t*`: `none` is the null pointer, `some a` points to the driver instance `a`. -/
abbrev UartPtr := Option Nat

/-- One call from the facade to the driver or to the platform, with its arguments. -/
inductive Event where
  | uart_init (uart_nr : Int) (baud : Nat) (config : Int) (mode : Int) (tx_pin : Nat)
      (rx_size : Nat)
  | uart_uninit (u : UartPtr)
  | uart_resize_rx_buffer (u : UartPtr) (size : Nat)
  | uart_swap (u : UartPtr) (tx_pin : Nat)
  | uart_set_tx (u : UartPtr) (tx_pin : Nat)
  | uart_set_pins (u : UartPtr) (tx : Nat) (rx : Nat)
  | uart_set_debug (uart_nr : Int)
  | uart_get_debug
  | uart_tx_enabled (u : UartPtr)
  | uart_rx_enabled (u : UartPtr)
  | uart_rx_available (u : UartPtr)
  | uart_peek_char (u : UartPtr)
  | uart_read_char (u : UartPtr)
  | uart_tx_free (u : UartPtr)
  | uart_wait_tx_empty (u : UartPtr)
  | uart_get_baudrate (u : UartPtr)
  | uart_write_char (u : UartPtr) (c : Nat)
  | optimistic_yield (interval_us : Nat)
  | delayMicroseconds (us : Nat)
  deriving DecidableEq, Repr

/-- The driver as the facade sees it: the header constant `UART_NO` and, for every driver
function with a result, the value it returns given the calls made so far and its arguments.
The three receive functions are asked only about live instances (see `uart_rx_available`,
`uart_peek_char`, `uart_read_char`); every other answer is arbitrary also for `NULL`. -/
structure Driver where
  UART_NO : Int
  init : List Event → Int → Nat → Int → Int → Nat → Nat → UartPtr
  resize_rx_buffer : List Event → UartPtr → Nat → Nat
  tx_enabled : List Event → UartPtr → Bool
  rx_enabled : List Event → UartPtr → Bool
  tx_free : List Event → UartPtr → Nat
  get_baudrate : List Event → UartPtr → Int
  rx_available : List Event → Nat → Nat
  peek_char : List Event → Nat → Int
  read_char : List Event → Nat → Int

/-- Driver-side and platform-side state: the process-wide debug-sink flag and the calls made
so far, oldest first. -/
structure World where
  debug_nr : Int
  trace : List Event
  deriving DecidableEq, Repr

/-- Append one call to the trace. -/
def World.log (w : World) (e : Event) : World :=
  { w with trace := w.trace ++ [e] }

/-- Conversion of a `size_t` to `int` (`static_cast<int>`), both 32 bits wide. -/
def to_int (n : Nat) : Int :=
  if n % 2 ^ 32 < 2 ^ 31 then ((n % 2 ^ 32 : Nat) : Int) else ((n % 2 ^ 32 : Nat) : Int) - 2 ^ 32

/-- Conversion of an `int` to `unsigned int`, 32 bits wide. -/
def to_unsigned (x : Int) : Nat :=
  (x % 2 ^ 32).toNat

/-! ## Driver entry points -/

def uart_init (d : Driver) (uart_nr : Int) (baud : Nat) (config mode : Int) (tx_pin rx_size : Nat)
    (w : World) : UartPtr × World :=
  (d.init w.trace uart_nr baud config mode tx_pin rx_size,
    w.log (.uart_init uart_nr baud config mode tx_pin rx_size))

def uart_uninit (u : UartPtr) (w : World) : World :=
  w.log (.uart_uninit u)

def uart_resize_rx_buffer (d : Driver) (u : UartPtr) (size : Nat) (w : World) : Nat × World :=
  (d.resize_rx_buffer w.trace u size, w.log (.uart_resize_rx_buffer u size))

def uart_swap (u : UartPtr) (tx_pin : Nat) (w : World) : World :=
  w.log (.uart_swap u tx_pin)

def uart_set_tx (u : UartPtr) (tx_pin : Nat) (w : World) : World :=
  w.log (.uart_set_tx u tx_pin)

def uart_set_pins (u : UartPtr) (tx rx : Nat) (w : World) : World :=
  w.log (.uart_set_pins u tx rx)

/-- Modelled from the spec: the driver's `uart_set_debug` is not in src/. The spec describes
the debug-sink flag as process-wide state owned by the driver layer with a global get/set
pair; the setter stores its argument in the flag. -/
def uart_set_debug (uart_nr : Int) (w : World) : World :=
  { debug_nr := uart_nr, trace := w.trace ++ [.uart_set_debug uart_nr] }

/-- Modelled from the spec: the driver's `uart_get_debug` is not in src/. It is the getter of
the process-wide debug-sink flag. -/
def uart_get_debug (w : World) : Int × World :=
  (w.debug_nr, w.log .uart_get_debug)

def uart_tx_enabled (d : Driver) (u : UartPtr) (w : World) : Bool × World :=
  (d.tx_enabled w.trace u, w.log (.uart_tx_enabled u))

def uart_rx_enabled (d : Driver) (u : UartPtr) (w : World) : Bool × World :=
  (d.rx_enabled w.trace u, w.log (.uart_rx_enabled u))

/-- Modelled from the spec: the driver's `uart_rx_available` is not in src/. The spec has a
closed handle surface as 0 bytes available; for a live instance the driver answers. -/
def uart_rx_available (d : Driver) (u : UartPtr) (w : World) : Nat × World :=
  (match u with
    | none => 0
    | some a => d.rx_available w.trace a,
   w.log (.uart_rx_available u))

/-- Modelled from the spec: the driver's `uart_peek_char` is not in src/. The spec has peek
yield the sentinel -1 for a closed handle; for a live instance the driver answers. -/
def uart_peek_char (d : Driver) (u : UartPtr) (w : World) : Int × World :=
  (match u with
    | none => -1
    | some a => d.peek_char w.trace a,
   w.log (.uart_peek_char u))

/-- Modelled from the spec: the driver's `uart_read_char` is not in src/. The spec has read
yield the sentinel -1 for a closed handle; for a live instance the driver answers. -/
def uart_read_char (d : Driver) (u : UartPtr) (w : World) : Int × World :=
  (match u with
    | none => -1
    | some a => d.read_char w.trace a,
   w.log (.uart_read_char u))

def uart_tx_free (d : Driver) (u : UartPtr) (w : World) : Nat × World :=
  (d.tx_free w.trace u, w.log (.uart_tx_free u))

def uart_wait_tx_empty (u : UartPtr) (w : World) : World :=
  w.log (.uart_wait_tx_empty u)

def uart_get_baudrate (d : Driver) (u : UartPtr) (w : World) : Int × World :=
  (d.get_baudrate w.trace u, w.log (.uart_get_baudrate u))

def uart_write_char (u : UartPtr) (c : Nat) (w : World) : World :=
  w.log (.uart_write_char u c)

/-! ## Platform primitives -/

def optimistic_yield (interval_us : Nat) (w : World) : World :=
  w.log (.optimistic_yield interval_us)

def delayMicroseconds (us : Nat) (w : World) : World :=
  w.log (.delayMicroseconds us)

/-! ## The class -/

/-- The data members of a `HardwareSerial` object. -/
structure HardwareSerial where
  _uart : UartPtr
  _uart_nr : Int
  _rx_size : Nat
  deriving DecidableEq, Repr

namespace HardwareSerial

/-- Modelled from the spec: the declaration of the member `_uart` (HardwareSerial.h) is not
in src/ and the constructor has no initialiser for it; the spec has the handle present only
while the port is open and construction does not open the port, so `_uart` starts as `NULL`.
The rest is the constructor `HardwareSerial(int uart_nr)`, which sets `_uart_nr` and
`_rx_size`. -/
def new (uart_nr : Int) : HardwareSerial :=
  { _uart := none, _uart_nr := uart_nr, _rx_size := 256 }

/-- The conversion `operator bool() const`: `_uart != 0`. -/
def operator_bool (s : HardwareSerial) : Bool :=
  s._uart != none

/-- The member `end()`. -/
def end_ (d : Driver) (s : HardwareSerial) (w : World) : HardwareSerial × World :=
  let r := uart_get_debug w
  let w1 := if r.1 = s._uart_nr then uart_set_debug d.UART_NO r.2 else r.2
  match s._uart with
  | some a => ({ s with _uart := none }, uart_uninit (some a) w1)
  | none => (s, w1)

/-- The member `setRxBufferSize(size_t size)`; the result is the returned size, the object
and the world afterwards. -/
def setRxBufferSize (d : Driver) (s : HardwareSerial) (size : Nat) (w : World) :
    Nat × HardwareSerial × World :=
  match s._uart with
  | some a =>
    let r := uart_resize_rx_buffer d (some a) size w
    (r.1, { s with _rx_size := r.1 }, r.2)
  | none => (size, { s with _rx_size := size }, w)

/-- The member `swap(uint8_t tx_pin)`. -/
def swap (s : HardwareSerial) (tx_pin : Nat) (w : World) : HardwareSerial × World :=
  match s._uart with
  | none => (s, w)
  | some a => (s, uart_swap (some a) tx_pin w)

/-- The member `set_tx(uint8_t tx_pin)`. -/
def set_tx (s : HardwareSerial) (tx_pin : Nat) (w : World) : HardwareSerial × World :=
  match s._uart with
  | none => (s, w)
  | some a => (s, uart_set_tx (some a) tx_pin w)

/-- The member `pins(uint8_t tx, uint8_t rx)`. -/
def pins (s : HardwareSerial) (tx rx : Nat) (w : World) : HardwareSerial × World :=
  match s._uart with
  | none => (s, w)
  | some a => (s, uart_set_pins (some a) tx rx w)

/-- The member `setDebugOutput(bool en)`. -/
def setDebugOutput (d : Driver) (s : HardwareSerial) (en : Bool) (w : World) :
    HardwareSerial × World :=
  match s._uart with
  | none => (s, w)
  | some a =>
    if en then
      let r := uart_tx_enabled d (some a) w
      if r.1 then (s, uart_set_debug s._uart_nr r.2) else (s, uart_set_debug d.UART_NO r.2)
    else
      let r := uart_get_debug w
      if r.1 = s._uart_nr then (s, uart_set_debug d.UART_NO r.2) else (s, r.2)

/-- The member `isTxEnabled()`: `_uart && uart_tx_enabled(_uart)`, the driver being asked
only when `_uart` is not null. -/
def isTxEnabled (d : Driver) (s : HardwareSerial) (w : World) : Bool × World :=
  match s._uart with
  | none => (false, w)
  | some a => uart_tx_enabled d (some a) w

/-- The member `isRxEnabled()`: `_uart && uart_rx_enabled(_uart)`. -/
def isRxEnabled (d : Driver) (s : HardwareSerial) (w : World) : Bool × World :=
  match s._uart with
  | none => (false, w)
  | some a => uart_rx_enabled d (some a) w

/-- The member `available()`. -/
def available (d : Driver) (s : HardwareSerial) (w : World) : Int × World :=
  let r := uart_rx_available d s._uart w
  let result := to_int r.1
  if result = 0 then (result, optimistic_yield 10000 r.2) else (result, r.2)

/-- The member `peek()`. -/
def peek (d : Driver) (s : HardwareSerial) (w : World) : Int × World :=
  uart_peek_char d s._uart w

/-- The member `read()`. -/
def read (d : Driver) (s : HardwareSerial) (w : World) : Int × World :=
  uart_read_char d s._uart w

/-- The member `availableForWrite()`. -/
def availableForWrite (d : Driver) (s : HardwareSerial) (w : World) : Int × World :=
  match s._uart with
  | none => (0, w)
  | some a =>
    let r := uart_tx_enabled d (some a) w
    if !r.1 then (0, r.2)
    else
      let f := uart_tx_free d (some a) r.2
      (to_int f.1, f.2)

/-- The member `flush()`. The result is `none` when the driver reports a baud rate of 0,
where the division `11000000 / uart_get_baudrate(_uart)` has no defined result. The quotient
of two `int`s truncates toward zero, and the sum is converted to the `unsigned int`
parameter of `delayMicroseconds`. -/
def flush (d : Driver) (s : HardwareSerial) (w : World) : Option (HardwareSerial × World) :=
  match s._uart with
  | none => some (s, w)
  | some a =>
    let r := uart_tx_enabled d (some a) w
    if !r.1 then some (s, r.2)
    else
      let w1 := uart_wait_tx_empty (some a) r.2
      let b := uart_get_baudrate d (some a) w1
      if b.1 = 0 then none
      else some (s, delayMicroseconds (to_unsigned (Int.tdiv 11000000 b.1 + 1)) b.2)

/-- The member `write(uint8_t c)`; the result is the returned count and the world. -/
def write (d : Driver) (s : HardwareSerial) (c : Nat) (w : World) : Nat × World :=
  match s._uart with
  | none => (0, w)
  | some a =>
    let r := uart_tx_enabled d (some a) w
    if !r.1 then (0, r.2)
    else (1, uart_write_char (some a) c r.2)

/-- The member `baudRate()`. -/
def baudRate (d : Driver) (s : HardwareSerial) (w : World) : Int × World :=
  uart_get_baudrate d s._uart w

/-- What the inherited `println` calls in `begin` do: `Print` (not in src/) hands the bytes
of the text to the virtual `write(uint8_t)` one at a time, in order. -/
def print_bytes (d : Driver) (s : HardwareSerial) : List Nat → World → World
  | [], w => w
  | c :: cs, w => print_bytes d s cs (write d s c w).2

/-- How `begin` is built. `debug_port` says that `DEBUG_ESP_PORT` is defined, `NDEBUG` is
not, and the object is `DEBUG_ESP_PORT` itself; `banner` lists the bytes that `println()`
followed by `println(ESP.getFullVersion())` then hand to `write`. -/
structure Build where
  debug_port : Bool
  banner : List Nat

/-- The member `begin(unsigned long baud, SerialConfig config, SerialMode mode,
uint8_t tx_pin)`. -/
def begin (d : Driver) (b : Build) (s : HardwareSerial) (baud : Nat) (config mode : Int)
    (tx_pin : Nat) (w : World) : HardwareSerial × World :=
  let e := end_ d s w
  let r := uart_init d e.1._uart_nr baud config mode tx_pin e.1._rx_size e.2
  let s1 : HardwareSerial := { e.1 with _uart := r.1 }
  if b.debug_port then
    let g := setDebugOutput d s1 true r.2
    (g.1, print_bytes d g.1 b.banner g.2)
  else (s1, r.2)

end HardwareSerial

/-! ## Reading a trace, and sequences of member calls -/

/-- Whether a call releases a driver instance (`uart_uninit`). -/
def Event.is_release : Event → Bool
  | .uart_uninit _ => true
  | _ => false

/-- Whether a call acquires a driver instance (`uart_init`). -/
def Event.is_acquire : Event → Bool
  | .uart_init _ _ _ _ _ _ => true
  | _ => false

/-- A call of one of the member functions of `HardwareSerial`, with its arguments. -/
inductive Call where
  | begin (baud : Nat) (config mode : Int) (tx_pin : Nat)
  | end_
  | setRxBufferSize (size : Nat)
  | swap (tx_pin : Nat)
  | set_tx (tx_pin : Nat)
  | pins (tx rx : Nat)
  | setDebugOutput (en : Bool)
  | isTxEnabled
  | isRxEnabled
  | available
  | peek
  | read
  | availableForWrite
  | flush
  | write (c : Nat)
  | baudRate
  deriving DecidableEq, Repr

/-- A port in its world, with the sizes that the `setRxBufferSize` calls made on the port so
far have returned, oldest first. -/
structure Run where
  port : HardwareSerial
  world : World
  sizes : List Nat
  deriving DecidableEq, Repr

/-- One member call on the port of a run; `none` when the call has no defined result. -/
def Run.call (d : Driver) (b : HardwareSerial.Build) (r : Run) : Call → Option Run
  | .begin baud config mode tx_pin =>
    let x := HardwareSerial.begin d b r.port baud config mode tx_pin r.world
    some { r with port := x.1, world := x.2 }
  | .end_ =>
    let x := HardwareSerial.end_ d r.port r.world
    some { r with port := x.1, world := x.2 }
  | .setRxBufferSize size =>
    let x := HardwareSerial.setRxBufferSize d r.port size r.world
    some { port := x.2.1, world := x.2.2, sizes := r.sizes ++ [x.1] }
  | .swap tx_pin =>
    let x := HardwareSerial.swap r.port tx_pin r.world
    some { r with port := x.1, world := x.2 }
  | .set_tx tx_pin =>
    let x := HardwareSerial.set_tx r.port tx_pin r.world
    some { r with port := x.1, world := x.2 }
  | .pins tx rx =>
    let x := HardwareSerial.pins r.port tx rx r.world
    some { r with port := x.1, world := x.2 }
  | .setDebugOutput en =>
    let x := HardwareSerial.setDebugOutput d r.port en r.world
    some { r with port := x.1, world := x.2 }
  | .isTxEnabled => some { r with world := (HardwareSerial.isTxEnabled d r.port r.world).2 }
  | .isRxEnabled => some { r with world := (HardwareSerial.isRxEnabled d r.port r.world).2 }
  | .available => some { r with world := (HardwareSerial.available d r.port r.world).2 }
  | .peek => some { r with world := (HardwareSerial.peek d r.port r.world).2 }
  | .read => some { r with world := (HardwareSerial.read d r.port r.world).2 }
  | .availableForWrite =>
    some { r with world := (HardwareSerial.availableForWrite d r.port r.world).2 }
  | .flush =>
    (HardwareSerial.flush d r.port r.world).map fun x => { r with port := x.1, world := x.2 }
  | .write c => some { r with world := (HardwareSerial.write d r.port c r.world).2 }
  | .baudRate => some { r with world := (HardwareSerial.baudRate d r.port r.world).2 }

/-- A sequence of member calls on the port of a run, in order. -/
def Run.calls (d : Driver) (b : HardwareSerial.Build) : Run → List Call → Option Run
  | r, [] => some r
  | r, c :: cs => (r.call d b c).bind fun r1 => r1.calls d b cs

/-- The run that starts with a freshly constructed port for channel `uart_nr`. -/
def Run.fresh (uart_nr : Int) (w : World) : Run :=
  { port := HardwareSerial.new uart_nr, world := w, sizes := [] }

/-! ## A concrete driver, for evaluating the definitions -/

/-- A driver with `UART_NO = -1` that hands out instance `uart_nr + 1` for channel
`uart_nr`, grants every buffer request rounded up to at least 16, reports transmit and
receive enabled, a free transmit buffer of 128 bytes, 115200 baud and an empty receive
buffer. -/
def demoDriver : Driver where
  UART_NO := -1
  init := fun _ uart_nr _ _ _ _ _ => some (uart_nr.toNat + 1)
  resize_rx_buffer := fun _ _ size => max size 16
  tx_enabled := fun _ _ => true
  rx_enabled := fun _ _ => true
  tx_free := fun _ _ => 128
  get_baudrate := fun _ _ => 115200
  rx_available := fun _ _ => 0
  peek_char := fun _ _ => -1
  read_char := fun _ _ => -1

/-- The driver `demoDriver` with transmit disabled on every instance (receive-only mode). -/
def rxOnlyDriver : Driver :=
  { demoDriver with tx_enabled := fun _ _ => false }

/-- The build without `DEBUG_ESP_PORT`. -/
def releaseBuild : HardwareSerial.Build :=
  { debug_port := false, banner := [] }

/-- A build in which the object is `DEBUG_ESP_PORT`; the banner is an empty line followed
by the line "2". -/
def debugBuild : HardwareSerial.Build :=
  { debug_port := true, banner := [13, 10, 50, 13, 10] }

/-- The world at start-up: no call made yet, no debug sink. -/
def World.start : World :=
  { debug_nr := -1, trace := [] }

/-- The world after a second object for channel 0 was opened on `demoDriver` and made the
debug sink: the flag names channel 0. -/
def World.sink0 : World :=
  (HardwareSerial.setDebugOutput demoDriver
    (HardwareSerial.begin demoDriver releaseBuild (HardwareSerial.new 0) 115200 28 3 1
      World.start).1 true
    (HardwareSerial.begin demoDriver releaseBuild (HardwareSerial.new 0) 115200 28 3 1
      World.start).2).2

/-- An open port for channel 0 holding instance 1, as `begin` on `demoDriver` leaves it. -/
def port0 : HardwareSerial :=
  { _uart := some 1, _uart_nr := 0, _rx_size := 256 }

/-- A sequence of member calls on a port: a buffer size is recorded while closed, the port is
opened, a byte written, the buffer resized while open, and the port closed. -/
def demoCalls : List Call :=
  [.setRxBufferSize 4, .begin 9600 28 3 1, .write 65, .setRxBufferSize 4, .end_]

/-- Where `demoCalls` leaves a fresh port for channel 1 on `demoDriver` in `debugBuild`,
starting from `World.start`. -/
def demoRun : Run :=
  { port := { _uart := none, _uart_nr := 1, _rx_size := 16 },
    world := { debug_nr := -1, trace := [
      .uart_get_debug, .uart_init 1 9600 28 3 1 4,
      .uart_tx_enabled (some 2), .uart_set_debug 1,
      .uart_tx_enabled (some 2), .uart_write_char (some 2) 13,
      .uart_tx_enabled (some 2), .uart_write_char (some 2) 10,
      .uart_tx_enabled (some 2), .uart_write_char (some 2) 50,
      .uart_tx_enabled (some 2), .uart_write_char (some 2) 13,
      .uart_tx_enabled (some 2), .uart_write_char (some 2) 10,
      .uart_tx_enabled (some 2), .uart_write_char (some 2) 65,
      .uart_resize_rx_buffer (some 2) 4,
      .uart_get_debug, .uart_set_debug (-1), .uart_uninit (some 2)] },
    sizes := [4, 16] }

/-! ## Properties -/

namespace HardwareSerial

theorem end_uart (d : Driver) (s : HardwareSerial) (w : World) :
    (end_ d s w).1._uart = none := by
  unfold end_
  cases h : s._uart <;> simp [h]

theorem end_fields (d : Driver) (s : HardwareSerial) (w : World) :
    (end_ d s w).1._uart_nr = s._uart_nr ∧ (end_ d s w).1._rx_size = s._rx_size := by
  unfold end_
  cases h : s._uart <;> simp

theorem end_debug_nr (d : Driver) (s : HardwareSerial) (w : World) :
    (end_ d s w).2.debug_nr = if w.debug_nr = s._uart_nr then d.UART_NO else w.debug_nr := by
  unfold end_
  cases h : s._uart <;> by_cases hd : w.debug_nr = s._uart_nr <;>
    simp [hd, uart_get_debug, uart_set_debug, uart_uninit, World.log]

/-- A port is closed when it is fresh, when it was closed with `end()`, or when its handle
is absent for any other reason (the driver returned no handle to `begin`). -/
theorem closed_cases (d : Driver) (b : Build) (uart_nr : Int) (s0 : HardwareSerial)
    (baud : Nat) (config mode : Int) (tx_pin : Nat) (w0 w1 : World) (s : HardwareSerial)
    (h : s = new uart_nr ∨ s = (end_ d (begin d b s0 baud config mode tx_pin w0).1 w1).1 ∨
      s._uart = none) : s._uart = none := by
  rcases h with h | h | h
  · rw [h]; rfl
  · rw [h]; exact end_uart _ _ _
  · exact h

/-- C1: on a port whose handle is absent (freshly constructed, or opened with `begin` under
any driver and build and then closed with `end`, or absent for any other reason), and for
every driver `q` answering the queries: `write(c)` returns 0, `availableForWrite()` returns
0, `isTxEnabled()` and `isRxEnabled()` return false, the boolean conversion is false; the
driver is not even consulted (the world, trace included, is unchanged). -/
theorem closed_port_transmit_defaults (d q : Driver) (b : Build) (uart_nr : Int)
    (s0 : HardwareSerial) (baud : Nat) (config mode : Int) (tx_pin : Nat) (w0 w1 : World)
    (s : HardwareSerial)
    (h : s = new uart_nr ∨ s = (end_ d (begin d b s0 baud config mode tx_pin w0).1 w1).1 ∨
      s._uart = none)
    (w : World) (c : Nat) :
    write q s c w = (0, w) ∧ availableForWrite q s w = (0, w) ∧
      isTxEnabled q s w = (false, w) ∧ isRxEnabled q s w = (false, w) ∧
      operator_bool s = false := by
  have hs := closed_cases d b uart_nr s0 baud config mode tx_pin w0 w1 s h
  simp [write, availableForWrite, isTxEnabled, isRxEnabled, operator_bool, hs]

/-- C2: on a port whose handle is absent (freshly constructed, or opened with `begin` and
then closed with `end`, or absent for any other reason), `read()` returns -1, `peek()`
returns -1 and `available()` returns 0; each hands the null handle to the driver, and
`available()` then yields. -/
theorem closed_port_receive_defaults (d q : Driver) (b : Build) (uart_nr : Int)
    (s0 : HardwareSerial) (baud : Nat) (config mode : Int) (tx_pin : Nat) (w0 w1 : World)
    (s : HardwareSerial)
    (h : s = new uart_nr ∨ s = (end_ d (begin d b s0 baud config mode tx_pin w0).1 w1).1 ∨
      s._uart = none)
    (w : World) :
    read q s w = (-1, w.log (.uart_read_char none)) ∧
      peek q s w = (-1, w.log (.uart_peek_char none)) ∧
      available q s w =
        (0, (w.log (.uart_rx_available none)).log (.optimistic_yield 10000)) := by
  have hs := closed_cases d b uart_nr s0 baud config mode tx_pin w0 w1 s h
  simp [read, peek, available, uart_read_char, uart_peek_char, uart_rx_available,
    optimistic_yield, to_int, hs]

/-- C3: for all ports `P` and `Q` and every value of the debug-sink flag, if the flag names
`P`'s channel then `P.end()` sets it to `UART_NO`, and if the flag differs from `Q`'s channel
then `Q.end()` leaves it unchanged. -/
theorem end_debug_flag (d : Driver) (P Q : HardwareSerial) (w : World) :
    (w.debug_nr = P._uart_nr → (end_ d P w).2.debug_nr = d.UART_NO) ∧
      (w.debug_nr ≠ Q._uart_nr → (end_ d Q w).2.debug_nr = w.debug_nr) := by
  constructor
  · intro h
    rw [end_debug_nr, if_pos h]
  · intro h
    rw [end_debug_nr, if_neg h]

/-- C4: on an open port, whatever the flag was before, `setDebugOutput(true)` leaves the
flag equal to this port's channel id when the driver reports transmit enabled for the handle
and equal to `UART_NO` when it reports transmit disabled; `setDebugOutput(false)` sets the
flag to `UART_NO` when it named this port's channel and leaves it unchanged otherwise. -/
theorem setDebugOutput_flag (d : Driver) (s : HardwareSerial) (a : Nat) (w : World)
    (h : s._uart = some a) :
    (d.tx_enabled w.trace (some a) = true →
        (setDebugOutput d s true w).2.debug_nr = s._uart_nr) ∧
      (d.tx_enabled w.trace (some a) = false →
        (setDebugOutput d s true w).2.debug_nr = d.UART_NO) ∧
      (w.debug_nr = s._uart_nr → (setDebugOutput d s false w).2.debug_nr = d.UART_NO) ∧
      (w.debug_nr ≠ s._uart_nr → (setDebugOutput d s false w).2.debug_nr = w.debug_nr) := by
  refine ⟨?_, ?_, ?_, ?_⟩ <;> intro hx <;>
    simp [setDebugOutput, h, hx, uart_tx_enabled, uart_get_debug, uart_set_debug, World.log]

/-- C5 (as amended): `end()` is idempotent on the port's fields and the debug-sink flag. On
a port that is already closed it leaves the fields unchanged and makes no `uart_uninit`
call: it only reads the flag, leaves it unchanged when it does not name this port's channel,
and sets it to `UART_NO` when it does. -/
theorem end_idempotent_closed (d : Driver) (s : HardwareSerial) (w : World) :
    (end_ d (end_ d s w).1 (end_ d s w).2).1 = (end_ d s w).1 ∧
      (end_ d (end_ d s w).1 (end_ d s w).2).2.debug_nr = (end_ d s w).2.debug_nr ∧
      (s._uart = none →
        (end_ d s w).1 = s ∧
        (w.debug_nr ≠ s._uart_nr → (end_ d s w).2 = w.log .uart_get_debug) ∧
        (w.debug_nr = s._uart_nr →
          (end_ d s w).2 =
            { debug_nr := d.UART_NO,
              trace := w.trace ++ [.uart_get_debug, .uart_set_debug d.UART_NO] })) := by
  refine ⟨?_, ?_, ?_⟩
  · have h1 := end_uart d s w
    generalize end_ d s w = e at h1
    obtain ⟨s1, w1⟩ := e
    simp only at h1
    simp [end_, h1]
  · rw [end_debug_nr, end_debug_nr, (end_fields d s w).1]
    by_cases h : w.debug_nr = s._uart_nr
    · simp only [if_pos h]
      split <;> rfl
    · simp [if_neg h, h]
  · intro h
    refine ⟨?_, ?_, ?_⟩
    · simp [end_, h]
    · intro hne
      simp [end_, h, hne, uart_get_debug]
    · intro he
      simp [end_, h, he, uart_get_debug, uart_set_debug, World.log]

/-- C6: `setRxBufferSize(n)` on a closed port records `n`, returns `n` and makes no driver
call; on an open port it makes exactly the call `uart_resize_rx_buffer(_uart, n)`, records
the size the driver grants and returns it. In both cases the returned value is the recorded
size afterwards and the handle and the channel id are unchanged. -/
theorem setRxBufferSize_spec (d : Driver) (s : HardwareSerial) (n : Nat) (w : World) :
    (s._uart = none → setRxBufferSize d s n w = (n, { s with _rx_size := n }, w)) ∧
      (∀ a, s._uart = some a →
        setRxBufferSize d s n w =
          (d.resize_rx_buffer w.trace (some a) n,
            { s with _rx_size := d.resize_rx_buffer w.trace (some a) n },
            { w with trace := w.trace ++ [.uart_resize_rx_buffer (some a) n] })) ∧
      (setRxBufferSize d s n w).1 = (setRxBufferSize d s n w).2.1._rx_size ∧
      (setRxBufferSize d s n w).2.1._uart = s._uart ∧
      (setRxBufferSize d s n w).2.1._uart_nr = s._uart_nr := by
  cases h : s._uart <;> simp [setRxBufferSize, h, uart_resize_rx_buffer, World.log]

/-- C7: for every value `c` (every byte 0..255 among them) and every open port, when the driver reports transmit enabled for
the handle `write(c)` returns 1 and, after the enabled query, makes exactly one
`uart_write_char` call, carrying the port's own handle and `c`; when the driver reports
transmit disabled `write(c)` returns 0 and makes no `uart_write_char` call. -/
theorem write_open (d : Driver) (s : HardwareSerial) (a : Nat) (c : Nat) (w : World)
    (h : s._uart = some a) :
    (d.tx_enabled w.trace (some a) = true →
        write d s c w =
          (1, { w with trace :=
            w.trace ++ [.uart_tx_enabled (some a), .uart_write_char (some a) c] })) ∧
      (d.tx_enabled w.trace (some a) = false →
        write d s c w = (0, { w with trace := w.trace ++ [.uart_tx_enabled (some a)] })) := by
  constructor <;> intro hx <;>
    simp [write, h, hx, uart_tx_enabled, uart_write_char, World.log]

/-- C9: on a closed port `swap`, `set_tx`, `pins`, `setDebugOutput` and `flush` return with
the port's fields and the world (debug-sink flag and trace of driver and platform calls)
unchanged, for every argument; on an open port whose transmit the driver reports disabled,
`flush` only makes that enabled query: no drain wait, no delay, fields and flag unchanged. -/
theorem closed_port_noops (d : Driver) (s : HardwareSerial) (w : World) (tx_pin tx rx : Nat)
    (en : Bool) :
    (s._uart = none →
        swap s tx_pin w = (s, w) ∧ set_tx s tx_pin w = (s, w) ∧ pins s tx rx w = (s, w) ∧
        setDebugOutput d s en w = (s, w) ∧ flush d s w = some (s, w)) ∧
      (∀ a : Nat, s._uart = some a → d.tx_enabled w.trace (some a) = false →
        flush d s w = some (s, { w with trace := w.trace ++ [.uart_tx_enabled (some a)] })) := by
  constructor
  · intro h
    simp [swap, set_tx, pins, setDebugOutput, flush, h]
  · intro a hp htx
    simp [flush, hp, htx, uart_tx_enabled, World.log]

/-- The pause of `flush` at a positive baud rate: truncating division and the conversion to
`unsigned int` give the natural number `11000000 / b + 1`. -/
theorem flush_pause (b : Nat) (hb : 1 ≤ b) :
    to_unsigned (Int.tdiv 11000000 (b : Int) + 1) = 11000000 / b + 1 := by
  have h1 : Int.tdiv 11000000 (b : Int) = ((11000000 / b : Nat) : Int) := by
    rw [Int.tdiv_eq_ediv (by norm_num) (by omega)]
    norm_cast
  rw [h1]
  have hq : 11000000 / b ≤ 11000000 := Nat.div_le_self _ _
  clear h1
  generalize 11000000 / b = q at hq
  unfold to_unsigned
  have h2 : ((q : Int) + 1) % 2 ^ 32 = (q : Int) + 1 := by
    apply Int.emod_eq_of_lt <;> omega
  rw [h2]
  omega

/-- C10: on an open port for which the driver reports transmit enabled, `flush()` waits for
transmit-empty, reads the baud rate `b` and, when `b ≥ 1`, then pauses for exactly
`11000000 / b + 1` microseconds; this `d` satisfies `d * b > 11000000` and
`(d - 1) * b ≤ 11000000`. The call has no defined result exactly when `b = 0`. -/
theorem flush_delay (d : Driver) (s : HardwareSerial) (a : Nat) (w : World)
    (h : s._uart = some a) (htx : d.tx_enabled w.trace (some a) = true) :
    (∀ b : Nat, 1 ≤ b →
        d.get_baudrate (w.trace ++ [.uart_tx_enabled (some a), .uart_wait_tx_empty (some a)])
          (some a) = (b : Int) →
        flush d s w = some (s, { w with trace := w.trace ++
          [.uart_tx_enabled (some a), .uart_wait_tx_empty (some a),
            .uart_get_baudrate (some a), .delayMicroseconds (11000000 / b + 1)] }) ∧
        (11000000 / b + 1) * b > 11000000 ∧ (11000000 / b + 1 - 1) * b ≤ 11000000) ∧
      (flush d s w = none ↔
        d.get_baudrate (w.trace ++ [.uart_tx_enabled (some a), .uart_wait_tx_empty (some a)])
          (some a) = 0) := by
  constructor
  · intro b hb hbaud
    refine ⟨?_, ?_, ?_⟩
    · have hne : (b : Int) ≠ 0 := by omega
      simp [flush, h, htx, uart_tx_enabled, uart_wait_tx_empty, uart_get_baudrate,
        delayMicroseconds, World.log, hbaud, hne, flush_pause b hb]
    · have := Nat.lt_mul_div_succ 11000000 (show 0 < b by omega)
      rw [Nat.mul_comm]
      exact this
    · simp only [Nat.add_sub_cancel]
      exact Nat.div_mul_le_self _ _
  · simp [flush, h, htx, uart_tx_enabled, uart_wait_tx_empty, uart_get_baudrate,
      delayMicroseconds, World.log]

/-- The calls `end()` makes: it reads the flag, clears it when it names this channel, and
releases the handle when there is one. -/
theorem end_trace (d : Driver) (s : HardwareSerial) (w : World) :
    (end_ d s w).2.trace =
      w.trace ++ [.uart_get_debug] ++
        (if w.debug_nr = s._uart_nr then [.uart_set_debug d.UART_NO] else []) ++
        (match s._uart with
          | some a => [.uart_uninit (some a)]
          | none => []) := by
  unfold end_
  cases h : s._uart <;> by_cases hd : w.debug_nr = s._uart_nr <;>
    simp [hd, uart_get_debug, uart_set_debug, uart_uninit, World.log]

theorem write_trace (d : Driver) (s : HardwareSerial) (c : Nat) (w : World) :
    ∃ rest, (write d s c w).2.trace = w.trace ++ rest ∧
      ∀ e ∈ rest, e.is_release = false ∧ e.is_acquire = false := by
  unfold write
  cases h : s._uart with
  | none => exact ⟨[], by simp⟩
  | some a =>
    by_cases hx : d.tx_enabled w.trace (some a) = true
    · exact ⟨[.uart_tx_enabled (some a), .uart_write_char (some a) c], by
        simp [hx, uart_tx_enabled, uart_write_char, World.log, Event.is_release,
          Event.is_acquire]⟩
    · exact ⟨[.uart_tx_enabled (some a)], by
        simp [hx, uart_tx_enabled, World.log, Event.is_release, Event.is_acquire]⟩

theorem print_bytes_trace (d : Driver) (s : HardwareSerial) (cs : List Nat) (w : World) :
    ∃ rest, (print_bytes d s cs w).trace = w.trace ++ rest ∧
      ∀ e ∈ rest, e.is_release = false ∧ e.is_acquire = false := by
  induction cs generalizing w with
  | nil => exact ⟨[], by simp [print_bytes]⟩
  | cons c cs ih =>
    obtain ⟨r1, h1, h1p⟩ := write_trace d s c w
    obtain ⟨r2, h2, h2p⟩ := ih (write d s c w).2
    refine ⟨r1 ++ r2, ?_, ?_⟩
    · simp [print_bytes, h2, h1, List.append_assoc]
    · intro e he
      rcases List.mem_append.mp he with he | he
      · exact h1p e he
      · exact h2p e he

theorem setDebugOutput_port (d : Driver) (s : HardwareSerial) (en : Bool) (w : World) :
    (setDebugOutput d s en w).1 = s := by
  unfold setDebugOutput
  cases h : s._uart with
  | none => rfl
  | some a =>
    cases en
    · by_cases hd : w.debug_nr = s._uart_nr <;> simp [uart_get_debug, hd]
    · cases hx : d.tx_enabled w.trace (some a) <;> simp [uart_tx_enabled, hx]

theorem setDebugOutput_trace (d : Driver) (s : HardwareSerial) (en : Bool) (w : World) :
    ∃ rest, (setDebugOutput d s en w).2.trace = w.trace ++ rest ∧
      ∀ e ∈ rest, e.is_release = false ∧ e.is_acquire = false := by
  unfold setDebugOutput
  cases h : s._uart with
  | none => exact ⟨[], by simp⟩
  | some a =>
    cases en
    · by_cases hd : w.debug_nr = s._uart_nr
      · exact ⟨[.uart_get_debug, .uart_set_debug d.UART_NO], by
          simp [hd, uart_get_debug, uart_set_debug, World.log, Event.is_release,
            Event.is_acquire]⟩
      · exact ⟨[.uart_get_debug], by
          simp [hd, uart_get_debug, World.log, Event.is_release, Event.is_acquire]⟩
    · cases hx : d.tx_enabled w.trace (some a)
      · exact ⟨[.uart_tx_enabled (some a), .uart_set_debug d.UART_NO], by
          simp [hx, uart_tx_enabled, uart_set_debug, World.log, Event.is_release,
            Event.is_acquire]⟩
      · exact ⟨[.uart_tx_enabled (some a), .uart_set_debug s._uart_nr], by
          simp [hx, uart_tx_enabled, uart_set_debug, World.log, Event.is_release,
            Event.is_acquire]⟩

/-- The object after `begin`: the handle is the one the driver returned to `uart_init`, the
channel id and the recorded buffer size are kept. -/
theorem begin_port (d : Driver) (b : Build) (s : HardwareSerial) (baud : Nat)
    (config mode : Int) (tx_pin : Nat) (w : World) :
    (begin d b s baud config mode tx_pin w).1 =
      { _uart := d.init (end_ d s w).2.trace s._uart_nr baud config mode tx_pin s._rx_size,
        _uart_nr := s._uart_nr, _rx_size := s._rx_size } := by
  obtain ⟨h1, h2⟩ := end_fields d s w
  unfold begin
  cases hb : b.debug_port <;> simp [setDebugOutput_port, uart_init, h1, h2]

theorem begin_trace (d : Driver) (b : Build) (s : HardwareSerial) (baud : Nat)
    (config mode : Int) (tx_pin : Nat) (w : World) :
    ∃ rest, (begin d b s baud config mode tx_pin w).2.trace =
        (end_ d s w).2.trace ++
          [.uart_init s._uart_nr baud config mode tx_pin s._rx_size] ++ rest ∧
      (∀ e ∈ rest, e.is_release = false ∧ e.is_acquire = false) ∧
      (b.debug_port = false → rest = []) := by
  obtain ⟨h1, h2⟩ := end_fields d s w
  unfold begin
  cases hb : b.debug_port
  · exact ⟨[], by simp [uart_init, World.log, h1, h2]⟩
  · simp only [if_true]
    rw [setDebugOutput_port]
    generalize hs1 : ({ (end_ d s w).1 with _uart := (uart_init d (end_ d s w).1._uart_nr baud
      config mode tx_pin (end_ d s w).1._rx_size (end_ d s w).2).1 } : HardwareSerial) = s1
    obtain ⟨r1, e1, p1⟩ := setDebugOutput_trace d s1 true
      (uart_init d (end_ d s w).1._uart_nr baud config mode tx_pin
        (end_ d s w).1._rx_size (end_ d s w).2).2
    obtain ⟨r2, e2, p2⟩ := print_bytes_trace d s1 b.banner (setDebugOutput d s1 true
      (uart_init d (end_ d s w).1._uart_nr baud config mode tx_pin
        (end_ d s w).1._rx_size (end_ d s w).2).2).2
    refine ⟨r1 ++ r2, ?_, ?_, by simp⟩
    · rw [e2, e1]
      simp [uart_init, World.log, h1, h2, List.append_assoc]
    · intro e he
      rcases List.mem_append.mp he with he | he
      · exact p1 e he
      · exact p2 e he

theorem setRxBufferSize_fields (d : Driver) (s : HardwareSerial) (n : Nat) (w : World) :
    (setRxBufferSize d s n w).2.1._uart_nr = s._uart_nr ∧
      (setRxBufferSize d s n w).2.1._rx_size = (setRxBufferSize d s n w).1 := by
  cases h : s._uart <;> simp [setRxBufferSize, h]

theorem flush_port (d : Driver) (s : HardwareSerial) (w : World) (x : HardwareSerial × World)
    (h : flush d s w = some x) : x.1 = s := by
  unfold flush at h
  cases hu : s._uart with
  | none =>
    simp only [hu, Option.some.injEq] at h
    rw [← h]
  | some a =>
    simp only [hu] at h
    split at h
    · simp only [Option.some.injEq] at h
      rw [← h]
    · split at h
      · exact absurd h (by simp)
      · simp only [Option.some.injEq] at h
        rw [← h]

/-- One member call keeps the channel id, and keeps the recorded buffer size equal to the
size returned by the latest `setRxBufferSize` call (256 when there was none). -/
theorem call_fields (d : Driver) (b : Build) (r r1 : Run) (c : Call)
    (h : r.call d b c = some r1) :
    r1.port._uart_nr = r.port._uart_nr ∧
      (r.port._rx_size = r.sizes.getLast?.getD 256 →
        r1.port._rx_size = r1.sizes.getLast?.getD 256) := by
  cases c with
  | begin baud config mode tx_pin =>
    simp only [Run.call, Option.some.injEq] at h
    subst h
    simp [begin_port]
  | end_ =>
    simp only [Run.call, Option.some.injEq] at h
    subst h
    simp [end_fields]
  | setRxBufferSize size =>
    simp only [Run.call, Option.some.injEq] at h
    subst h
    have := setRxBufferSize_fields d r.port size r.world
    simp [this.1, this.2]
  | flush =>
    simp only [Run.call, Option.map_eq_some'] at h
    obtain ⟨x, hx, rfl⟩ := h
    simp [flush_port d r.port r.world x hx]
  | swap tx_pin =>
    simp only [Run.call, Option.some.injEq] at h
    subst h
    cases hu : r.port._uart <;> simp [swap, hu]
  | set_tx tx_pin =>
    simp only [Run.call, Option.some.injEq] at h
    subst h
    cases hu : r.port._uart <;> simp [set_tx, hu]
  | pins tx rx =>
    simp only [Run.call, Option.some.injEq] at h
    subst h
    cases hu : r.port._uart <;> simp [pins, hu]
  | setDebugOutput en =>
    simp only [Run.call, Option.some.injEq] at h
    subst h
    simp [setDebugOutput_port]
  | _ =>
    simp only [Run.call, Option.some.injEq] at h
    subst h
    simp

theorem calls_fields (d : Driver) (b : Build) (cs : List Call) (r r1 : Run)
    (h : r.calls d b cs = some r1) (hr : r.port._rx_size = r.sizes.getLast?.getD 256) :
    r1.port._uart_nr = r.port._uart_nr ∧ r1.port._rx_size = r1.sizes.getLast?.getD 256 := by
  induction cs generalizing r with
  | nil =>
    simp only [Run.calls, Option.some.injEq] at h
    subst h
    exact ⟨rfl, hr⟩
  | cons c cs ih =>
    simp only [Run.calls, Option.bind_eq_some] at h
    obtain ⟨r2, h2, h3⟩ := h
    obtain ⟨k1, k2⟩ := call_fields d b r r2 c h2
    obtain ⟨i1, i2⟩ := ih r2 h3 (k2 hr)
    exact ⟨i1.trans k1, i2⟩

/-- C8: for every port state, `begin(baud, config, mode, tx_pin)` first makes the calls of
`end()` (a read of the flag, a clearing of it when it names this channel, and one
`uart_uninit` of the existing handle when there is one, none when the port was closed), then
calls `uart_init` with the port's channel id, the given baud, config, mode and tx_pin and
the recorded buffer size, and after that makes no further `uart_uninit` or `uart_init` call.
Afterwards the handle is what the driver returned, so the boolean conversion is true exactly
when the driver returned a handle; the channel id and the recorded buffer size are
unchanged. On a port reached from construction for channel `uart_nr` by any sequence of
member calls, the channel id is `uart_nr` and the recorded size is the one returned by the
latest `setRxBufferSize` call, 256 when there was none. -/
theorem begin_spec (d : Driver) (b : Build) (s : HardwareSerial) (baud : Nat)
    (config mode : Int) (tx_pin : Nat) (w : World) :
    (∃ rest, (begin d b s baud config mode tx_pin w).2.trace =
        (end_ d s w).2.trace ++
          [.uart_init s._uart_nr baud config mode tx_pin s._rx_size] ++ rest ∧
      (∀ e ∈ rest, e.is_release = false ∧ e.is_acquire = false) ∧
      (b.debug_port = false → rest = [])) ∧
    (end_ d s w).2.trace =
      w.trace ++ [.uart_get_debug] ++
        (if w.debug_nr = s._uart_nr then [.uart_set_debug d.UART_NO] else []) ++
        (match s._uart with
          | some a => [.uart_uninit (some a)]
          | none => []) ∧
    (begin d b s baud config mode tx_pin w).1 =
      { _uart := d.init (end_ d s w).2.trace s._uart_nr baud config mode tx_pin s._rx_size,
        _uart_nr := s._uart_nr, _rx_size := s._rx_size } ∧
    (operator_bool (begin d b s baud config mode tx_pin w).1 = true ↔
      (d.init (end_ d s w).2.trace s._uart_nr baud config mode tx_pin s._rx_size).isSome
        = true) ∧
    (∀ (uart_nr : Int) (w0 : World) (cs : List Call) (sizes : List Nat),
      (Run.fresh uart_nr w0).calls d b cs = some { port := s, world := w, sizes := sizes } →
      s._uart_nr = uart_nr ∧ s._rx_size = sizes.getLast?.getD 256) := by
  refine ⟨begin_trace d b s baud config mode tx_pin w, end_trace d s w,
    begin_port d b s baud config mode tx_pin w, ?_, ?_⟩
  · rw [begin_port]
    cases d.init (end_ d s w).2.trace s._uart_nr baud config mode tx_pin s._rx_size <;>
      simp [operator_bool]
  · intro uart_nr w0 cs sizes h
    exact calls_fields d b cs (Run.fresh uart_nr w0) _ h rfl

/-! ## Evaluations at concrete inputs -/

/-- A port opened on `demoDriver` in the debug build and closed again answers with the closed-state defaults, also when queried through another driver. -/
theorem closed_port_transmit_defaults_witness :
    write rxOnlyDriver
        (end_ demoDriver (begin demoDriver debugBuild (new 0) 115200 28 3 1 World.start).1
          World.start).1 65 World.start = (0, World.start) ∧
      availableForWrite rxOnlyDriver
        (end_ demoDriver (begin demoDriver debugBuild (new 0) 115200 28 3 1 World.start).1
          World.start).1 World.start = (0, World.start) ∧
      isTxEnabled rxOnlyDriver
        (end_ demoDriver (begin demoDriver debugBuild (new 0) 115200 28 3 1 World.start).1
          World.start).1 World.start = (false, World.start) ∧
      isRxEnabled rxOnlyDriver
        (end_ demoDriver (begin demoDriver debugBuild (new 0) 115200 28 3 1 World.start).1
          World.start).1 World.start = (false, World.start) ∧
      operator_bool
        (end_ demoDriver (begin demoDriver debugBuild (new 0) 115200 28 3 1 World.start).1
          World.start).1 = false :=
  closed_port_transmit_defaults demoDriver rxOnlyDriver debugBuild 0 (new 0) 115200 28 3 1
    World.start World.start _ (Or.inr (Or.inl rfl)) World.start 65

/-- A fresh port for channel 1 reads -1, peeks -1 and has 0 bytes available. -/
theorem closed_port_receive_defaults_witness :
    read demoDriver (new 1) World.start = (-1, World.start.log (.uart_read_char none)) ∧
      peek demoDriver (new 1) World.start = (-1, World.start.log (.uart_peek_char none)) ∧
      available demoDriver (new 1) World.start =
        (0, (World.start.log (.uart_rx_available none)).log (.optimistic_yield 10000)) :=
  closed_port_receive_defaults demoDriver demoDriver releaseBuild 1 (new 0) 9600 28 3 1
    World.start World.start (new 1) (Or.inl rfl) World.start

/-- With the flag naming channel 0, closing the port of channel 0 sets it to -1 and closing the port of channel 1 leaves it at 0. -/
theorem end_debug_flag_witness :
    (end_ demoDriver port0
        { debug_nr := 0, trace := [] }).2.debug_nr = -1 ∧
      (end_ demoDriver { _uart := some 2, _uart_nr := 1, _rx_size := 256 }
        { debug_nr := 0, trace := [] }).2.debug_nr = 0 :=
  ⟨(end_debug_flag demoDriver port0
      { _uart := some 2, _uart_nr := 1, _rx_size := 256 } { debug_nr := 0, trace := [] }).1 rfl,
    (end_debug_flag demoDriver port0
      { _uart := some 2, _uart_nr := 1, _rx_size := 256 } { debug_nr := 0, trace := [] }).2
      (by decide)⟩

/-- The four cases of `setDebugOutput` on the open port of channel 0. -/
theorem setDebugOutput_flag_witness :
    (setDebugOutput demoDriver port0 true
        { debug_nr := 1, trace := [] }).2.debug_nr = 0 ∧
      (setDebugOutput rxOnlyDriver port0 true
        { debug_nr := 1, trace := [] }).2.debug_nr = -1 ∧
      (setDebugOutput demoDriver port0 false
        { debug_nr := 0, trace := [] }).2.debug_nr = -1 ∧
      (setDebugOutput demoDriver port0 false
        { debug_nr := 1, trace := [] }).2.debug_nr = 1 :=
  ⟨(setDebugOutput_flag demoDriver port0 1
      { debug_nr := 1, trace := [] } rfl).1 rfl,
    (setDebugOutput_flag rxOnlyDriver port0 1
      { debug_nr := 1, trace := [] } rfl).2.1 rfl,
    (setDebugOutput_flag demoDriver port0 1
      { debug_nr := 0, trace := [] } rfl).2.2.1 rfl,
    (setDebugOutput_flag demoDriver port0 1
      { debug_nr := 1, trace := [] } rfl).2.2.2 (by decide)⟩

/-- C5 as stated fails: a second object for channel 0 is opened and made the debug sink, so
the flag is 0; `end()` on a freshly constructed, closed port for channel 0 then changes the
flag from 0 to `UART_NO`. -/
theorem end_closed_port_clears_flag :
    (new 0)._uart = none ∧ World.sink0.debug_nr = 0 ∧
      (end_ demoDriver (new 0) World.sink0).2.debug_nr = -1 ∧
      (end_ demoDriver (new 0) World.sink0).2.debug_nr ≠ World.sink0.debug_nr := by
  decide

/-- Closing a fresh port for channel 0: with no debug sink only the flag is read; with the flag naming channel 0 it is set to -1; no instance is released. -/
theorem end_idempotent_closed_witness :
    (end_ demoDriver (new 0) World.start).1 = new 0 ∧
      (end_ demoDriver (new 0) World.start).2 = World.start.log .uart_get_debug ∧
      (end_ demoDriver (new 0) World.sink0).2 =
        { debug_nr := -1,
          trace := World.sink0.trace ++ [.uart_get_debug, .uart_set_debug (-1)] } :=
  ⟨((end_idempotent_closed demoDriver (new 0) World.start).2.2 rfl).1,
    ((end_idempotent_closed demoDriver (new 0) World.start).2.2 rfl).2.1 (by decide),
    ((end_idempotent_closed demoDriver (new 0) World.sink0).2.2 rfl).2.2 (by decide)⟩

/-- A request for 4 bytes is recorded as 4 on a closed port and as the granted 16 on an open one. -/
theorem setRxBufferSize_spec_witness :
    setRxBufferSize demoDriver (new 0) 4 World.start =
        (4, { _uart := none, _uart_nr := 0, _rx_size := 4 }, World.start) ∧
      setRxBufferSize demoDriver port0 4 World.start =
        (16, { _uart := some 1, _uart_nr := 0, _rx_size := 16 },
          { debug_nr := -1, trace := [.uart_resize_rx_buffer (some 1) 4] }) :=
  ⟨(setRxBufferSize_spec demoDriver (new 0) 4 World.start).1 rfl,
    (setRxBufferSize_spec demoDriver port0 4 World.start).2.1 1 rfl⟩

/-- Writing byte 65 on the open port of channel 0 with transmit enabled and with transmit disabled. -/
theorem write_open_witness :
    write demoDriver port0 65 World.start =
        (1, { debug_nr := -1,
              trace := [.uart_tx_enabled (some 1), .uart_write_char (some 1) 65] }) ∧
      write rxOnlyDriver port0 65 World.start =
        (0, { debug_nr := -1, trace := [.uart_tx_enabled (some 1)] }) :=
  ⟨(write_open demoDriver port0 1 65 World.start rfl).1 rfl,
    (write_open rxOnlyDriver port0 1 65 World.start rfl).2 rfl⟩

/-- The run `demoCalls` evaluates to `demoRun`: `uart_init` receives the size 4 recorded while closed, and the port ends with the granted size 16. -/
theorem begin_spec_witness :
    (Run.fresh 1 World.start).calls demoDriver debugBuild demoCalls = some demoRun ∧
      demoRun.port._uart_nr = 1 ∧ demoRun.port._rx_size = demoRun.sizes.getLast?.getD 256 :=
  ⟨by decide,
    (begin_spec demoDriver debugBuild demoRun.port 9600 28 3 1 demoRun.world).2.2.2.2 1
      World.start demoCalls demoRun.sizes (by decide)⟩

/-- The five members on a fresh port with the flag naming its channel, and `flush` on an open port with transmit disabled. -/
theorem closed_port_noops_witness :
    (swap (new 0) 2 World.sink0 = (new 0, World.sink0) ∧
        set_tx (new 0) 2 World.sink0 = (new 0, World.sink0) ∧
        pins (new 0) 15 13 World.sink0 = (new 0, World.sink0) ∧
        setDebugOutput demoDriver (new 0) true World.sink0 = (new 0, World.sink0) ∧
        flush demoDriver (new 0) World.sink0 = some (new 0, World.sink0)) ∧
      flush rxOnlyDriver port0 World.start =
        some (port0, { debug_nr := -1, trace := [.uart_tx_enabled (some 1)] }) :=
  ⟨(closed_port_noops demoDriver (new 0) World.sink0 2 15 13 true).1 rfl,
    (closed_port_noops rxOnlyDriver port0 World.start 2 15 13 true).2 1 rfl rfl⟩

/-- At 115200 baud the pause is 96 microseconds; at a reported baud rate of 0 `flush` has no defined result. -/
theorem flush_delay_witness :
    (flush demoDriver port0 World.start =
        some (port0, { debug_nr := -1, trace :=
          [.uart_tx_enabled (some 1), .uart_wait_tx_empty (some 1),
            .uart_get_baudrate (some 1), .delayMicroseconds 96] }) ∧
      96 * 115200 > 11000000 ∧ 95 * 115200 ≤ 11000000) ∧
      flush { demoDriver with get_baudrate := fun _ _ => 0 } port0 World.start = none :=
  ⟨(flush_delay demoDriver port0 1 World.start rfl rfl).1 115200 (by decide) rfl,
    (flush_delay { demoDriver with get_baudrate := fun _ _ => 0 } port0 1 World.start
      rfl rfl).2.2 rfl⟩

end HardwareSerial
